import Mathlib

/-!
Shallow embedding of the VeriLens scan pipeline
(`src/user_side/verilens/src/app/api/scan/route.ts`).

JavaScript numbers are modelled as rationals; `Math.round` is modelled
as rounding half towards positive infinity.  The external `exifr`
metadata parser, the local Python classifier process and the remote
Hugging Face inference service are modelled as oracle inputs; the
pipeline's own logic (pattern tables, scoring formulas, byte scanning,
phase policy) is translated from the source.  `toLowerCase` is modelled
on the ASCII range, which covers every pattern in the source tables.
-/

namespace VeriLens

/-- JavaScript `Math.round`: round half towards positive infinity. -/
def jsRound (x : ℚ) : ℤ := Int.floor (x + 1 / 2)

/-- `Math.round (x * 10) / 10` — round to one decimal place. -/
def round10 (x : ℚ) : ℚ := (jsRound (x * 10) : ℚ) / 10

/-- `Math.round (x * 1000) / 10` — 0..1 fraction to a one-decimal percentage. -/
def round1000d10 (x : ℚ) : ℚ := (jsRound (x * 1000) : ℚ) / 10

/-- The value carries at most one decimal place. -/
def oneDecimal (q : ℚ) : Prop := ∃ k : ℤ, q = (k : ℚ) / 10

/-- One byte of the uploaded buffer, decoded as a (Latin-1/ASCII) char,
as done by `TextDecoder("ascii")`. -/
def byteChar (b : ℕ) : Char := Char.ofNat (b % 256)

/-- ASCII decoding of the byte buffer. -/
def asciiOf (bytes : List ℕ) : List Char := bytes.map byteChar

/-- `toLowerCase` on a char list (ASCII range). -/
def lclist (l : List Char) : List Char := l.map Char.toLower

/-- Lowercased char list of a string. -/
def lcs (s : String) : List Char := lclist s.toList

/-- The string `n` occurs at the start of `t`. -/
def pre (n : String) (t : List Char) : Bool := n.toList.isPrefixOf t

/-- Some suffix of the list satisfies `p` (including the empty suffix). -/
def anySuffix (p : List Char → Bool) : List Char → Bool
  | [] => p []
  | c :: t => p (c :: t) || anySuffix p t

/-- JavaScript `String.prototype.includes`: `needle` occurs inside `hay`. -/
def infixB (needle : String) (hay : List Char) : Bool :=
  anySuffix (pre needle) hay

/-- Word character for the regex `\b` boundary (`[A-Za-z0-9_]`). -/
def isWordChar (c : Char) : Bool := c.isAlphanum || c == '_'

/-- Whitespace for the regex class `\s`. -/
def isSpaceChar (c : Char) : Bool := c == ' ' || c == '\t' || c == '\n' || c == '\r'

/-- `\b` holds before the current position given the previous char. -/
def prevBoundary : Option Char → Bool
  | none => true
  | some c => !isWordChar c

/-- `\b` holds after a match that ends where `l` starts. -/
def nextBoundary : List Char → Bool
  | [] => true
  | c :: _ => !isWordChar c

/-- Scan every position of `l`, tracking the previous character, and
test the matcher `p` there. -/
def searchFrom (p : Option Char → List Char → Bool) : Option Char → List Char → Bool
  | prev, [] => p prev []
  | prev, c :: t => p prev (c :: t) || searchFrom p (some c) t

/-- Length of the longest prefix whose chars satisfy `p`. -/
def countLeading (p : Char → Bool) : List Char → ℕ
  | [] => 0
  | c :: t => if p c then countLeading p t + 1 else 0

/-- A word-bounded occurrence of the (word-char) token `tok`, searched
with initial previous-character `prev`. -/
def wbTokenFrom (tok : String) (prev : Option Char) (l : List Char) : Bool :=
  searchFrom
    (fun p s => prevBoundary p && pre tok s && nextBoundary (s.drop tok.length))
    prev l

/-- A word-bounded occurrence of `tok` anywhere in `l`. -/
def wbToken (tok : String) (l : List Char) : Bool := wbTokenFrom tok none l

/-- Optional single separator: `rest` follows either directly or after
one char of the class `cls` (regex `[cls]?rest`). -/
def opt1 (cls : Char → Bool) (rest : String) (t : List Char) : Bool :=
  pre rest t ||
    (match t with
     | c :: r => cls c && pre rest r
     | [] => false)

/-- First-occurrence-preserving de-duplication, as `[...new Set(l)]`. -/
def dedupFirst (l : List String) : List String :=
  l.foldl (fun acc x => if x ∈ acc then acc else acc ++ [x]) []

/-! ### SynthID / digital-watermark detection (`detectSynthID`) -/

/-- Result shape of `detectSynthID`. -/
structure SynthIDResult where
  detected : Bool
  confidence : ℕ
  signals : List String
  deriving DecidableEq

/-- Oracle for the `exifr.parse` call inside `detectSynthID` (step 2).
`none` models a parse failure or a null result (the `catch` path).
`dst` is `String(meta.DigitalSourceType ?? meta.digitalSourceType ?? "")`,
`allValues` is `JSON.stringify(meta)`, `contentCredentials` is the
truthiness of `meta.ContentCredentials || meta.contentCredentials`,
`swResolved` is `String(meta.Software ?? meta.CreatorTool ?? "")` and
`swDisplay` the interpolated `meta.Software ?? meta.CreatorTool`. -/
structure SynthMeta where
  dst : String
  allValues : String
  contentCredentials : Bool
  swResolved : String
  swDisplay : String
  deriving DecidableEq

/-- Regex `/google[:\-]?ai/i` on a lowercased char list. -/
def googleOptSepAi (l : List Char) : Bool :=
  anySuffix
    (fun t => pre "google" t &&
      opt1 (fun c => c == ':' || c == '-') "ai" (t.drop 6)) l

/-- Regex `/\b(imagen|gemini|google\s*ai|dreambooth)\b/i` on a lowercased
char list (the `Software`/`CreatorTool` check of `detectSynthID`). -/
def synthSwToolMatch (l : List Char) : Bool :=
  searchFrom
    (fun p t => prevBoundary p &&
      ((pre "imagen" t && nextBoundary (t.drop 6)) ||
       (pre "gemini" t && nextBoundary (t.drop 6)) ||
       (pre "dreambooth" t && nextBoundary (t.drop 10)) ||
       (pre "google" t &&
         (let r := t.drop 6
          let k := countLeading isSpaceChar r
          pre "ai" (r.drop k) && nextBoundary (r.drop (k + 2))))))
    none l

/-- Regex `/google[:\-]ai[:\-]watermark/i` (exactly one separator each),
expanded into its four concrete alternatives. -/
def googleWatermarkPat (l : List Char) : Bool :=
  infixB "google:ai:watermark" l || infixB "google:ai-watermark" l ||
  infixB "google-ai:watermark" l || infixB "google-ai-watermark" l

/-- Step 1 of `detectSynthID`: the C2PA / JUMBF signature table matched
against the lowercased ASCII-decoded buffer. -/
def c2paSignals (la : List Char) : List String :=
  (if infixB "c2pa.hash.synthid" la then ["C2PA SynthID hash assertion"] else []) ++
  (if infixB "steg.synthid" la then ["C2PA SynthID steganographic assertion"] else []) ++
  (if infixB "c2pa.soft-binding" la then ["C2PA soft-binding assertion (watermark)"] else []) ++
  (if infixB "synthid" la then ["SynthID marker in binary payload"] else []) ++
  (if googleWatermarkPat la then ["Google AI watermark identifier"] else [])

/-- Step 2 of `detectSynthID`: Google-specific XMP / IPTC metadata signals. -/
def synthMetaSignals (t : SynthMeta) : List String :=
  (if infixB "trainedalgorithmicmedia" (lcs t.dst) then
    ["IPTC DigitalSourceType: trainedAlgorithmicMedia (SynthID-standard)"] else []) ++
  (if googleOptSepAi (lcs t.allValues) || infixB "gimg:" (lcs t.allValues) then
    ["Google AI XMP namespace detected"] else []) ++
  (if infixB "deepmind" (lcs t.allValues) then
    ["DeepMind reference found in metadata"] else []) ++
  (if t.contentCredentials then ["ContentCredentials field present"] else []) ++
  (if synthSwToolMatch (lcs t.swResolved) then
    ["Google AI tool detected in Software: \"" ++ t.swDisplay ++ "\""] else [])

/-- The big-endian 32-bit chunk length read at `offset`
(`(b0 << 24 | b1 << 16 | b2 << 8 | b3) >>> 0` on `Uint8Array` bytes). -/
def chunkLenAt (bytes : List ℕ) (offset : ℕ) : ℕ :=
  (bytes.getD offset 0) * 16777216 + (bytes.getD (offset + 1) 0) * 65536 +
  (bytes.getD (offset + 2) 0) * 256 + bytes.getD (offset + 3) 0

/-- The decoded chunk payload at `offset`:
`bytes.slice(offset + 8, offset + 8 + Math.min(chunkLen, 4096))`. -/
def chunkPayload (bytes : List ℕ) (offset : ℕ) : List Char :=
  asciiOf ((bytes.drop (offset + 8)).take (min (chunkLenAt bytes offset) 4096))

/-- The four-character chunk type at `offset`. -/
def chunkTypeAt (bytes : List ℕ) (offset : ℕ) : String :=
  String.mk [byteChar (bytes.getD (offset + 4) 0), byteChar (bytes.getD (offset + 5) 0),
    byteChar (bytes.getD (offset + 6) 0), byteChar (bytes.getD (offset + 7) 0)]

/-- Keyword list searched inside PNG text chunks. -/
def pngKeywords : List String :=
  ["synthid", "google:watermark", "ai:watermark", "c2pa", "content-credentials", "google-ai"]

/-- Step 3 of `detectSynthID`: the PNG chunk-walking loop, starting at a
given offset.  Each chunk's length field is validated against the buffer
bounds before its data is read; the walk stops (returning the signals
gathered so far) at the first malformed or truncated chunk. -/
def pngScanFrom (bytes : List ℕ) (offset : ℕ) : List String :=
  if ho : offset + 8 ≤ bytes.length then
    if hb : offset + 8 + chunkLenAt bytes offset > bytes.length ∨
        offset + 12 + chunkLenAt bytes offset > bytes.length then
      []
    else
      let ct := chunkTypeAt bytes offset
      let here :=
        if ct = "tEXt" || ct = "iTXt" || ct = "zTXt" then
          pngKeywords.filterMap (fun kw =>
            if infixB kw (lclist (chunkPayload bytes offset)) then
              some ("PNG " ++ ct ++ " chunk contains \"" ++ kw ++ "\"")
            else none)
        else []
      here ++ pngScanFrom bytes (offset + 12 + chunkLenAt bytes offset)
  else []
termination_by bytes.length - offset
decreasing_by
  push_neg at hb
  omega

/-- PNG chunk scan of the whole buffer, guarded by the PNG signature check. -/
def pngSignals (bytes : List ℕ) : List String :=
  if bytes.getD 0 0 == 0x89 && bytes.getD 1 0 == 0x50 then pngScanFrom bytes 8 else []

/-- The high-confidence signal pattern
`/synthid|c2pa|google.*ai|deepmind|content.?credentials|trainedalgorithmicmedia/i`. -/
def isHighSignal (s : String) : Bool :=
  infixB "synthid" (lcs s) || infixB "c2pa" (lcs s) ||
  anySuffix (fun t => pre "google" t &&
    infixB "ai" ((t.drop 6).takeWhile (fun c => c != '\n'))) (lcs s) ||
  infixB "deepmind" (lcs s) ||
  anySuffix (fun t => pre "content" t &&
    (pre "credentials" (t.drop 7) ||
      (match t.drop 7 with
       | c :: r => c != '\n' && pre "credentials" r
       | [] => false))) (lcs s) ||
  infixB "trainedalgorithmicmedia" (lcs s)

/-- Final aggregation of `detectSynthID`: `detected = signals.length > 0`;
`confidence = min(98, 40 + high * 20 + (signals.length - high) * 8)`. -/
def synthAggregate (signals : List String) : SynthIDResult :=
  ⟨!signals.isEmpty,
   if !signals.isEmpty then
     min 98 (40 + (signals.filter isHighSignal).length * 20 +
       (signals.length - (signals.filter isHighSignal).length) * 8)
   else 0,
   signals⟩

/-- `detectSynthID(buffer)`, with the `exifr` result supplied as oracle. -/
def detectSynthID (meta : Option SynthMeta) (bytes : List ℕ) : SynthIDResult :=
  synthAggregate
    (c2paSignals (lclist (asciiOf bytes)) ++
     (match meta with
      | none => []
      | some t => synthMetaSignals t) ++
     pngSignals bytes)

/-! ### General metadata / EXIF AI-marker detection (`detectMetadata`) -/

/-- Result shape of `detectMetadata`. -/
structure MetadataResult where
  isAI : Bool
  confidence : ℕ
  markers : List String
  tool : Option String
  deriving DecidableEq

/-- Oracle for the `exifr.parse` call inside `detectMetadata`.  `none`
models a parse failure or a null result.  `digitalSourceType` is
`String(meta.DigitalSourceType ?? meta.digitalSourceType ?? "")`;
`software`, `creatorTool` and `creator` are the alias-resolved
`String(...)` values of the three text fields; `descFields` is
`[ImageDescription, Description, UserComment, Comment].filter(Boolean)`
stringified. -/
structure MetaTags where
  digitalSourceType : String
  software : String
  creatorTool : String
  creator : String
  descFields : List String
  deriving DecidableEq

/-- The class `[·\-\s]` of `/dall[·\-\s]?e/i`. -/
def dalleSep (c : Char) : Bool := c == '·' || c == '-' || isSpaceChar c

/-- The class `[.\-\s]` of `/stable[.\-\s]?diffusion/i` and
`/\bai[.\-\s]?generated\b/i`. -/
def dotDashSpace (c : Char) : Bool := c == '.' || c == '-' || isSpaceChar c

/-- The class `[:\s]`. -/
def colonSpace (c : Char) : Bool := c == ':' || isSpaceChar c

/-- `AI_SOFTWARE_PATTERNS`: does any of the seventeen generative-tool
regexes match the lowercased text?  (All patterns push the same marker
and the same tool value, so only the disjunction is observable.) -/
def aiSoftwareMatch (l : List Char) : Bool :=
  infixB "midjourney" l ||
  anySuffix (fun t => pre "dall" t && opt1 dalleSep "e" (t.drop 4)) l ||
  anySuffix (fun t => pre "stable" t && opt1 dotDashSpace "diffusion" (t.drop 6)) l ||
  infixB "imagen" l || infixB "firefly" l || infixB "leonardo.ai" l ||
  infixB "nightcafe" l || infixB "artbreeder" l || infixB "dreamstudio" l ||
  infixB "comfyui" l || infixB "automatic1111" l ||
  anySuffix (fun t => pre "invoke" t && opt1 isSpaceChar "ai" (t.drop 6)) l ||
  infixB "novelai" l ||
  wbToken "flux" l || wbToken "gemini" l || wbToken "chatgpt" l || wbToken "openai" l

/-- Regex `/\bnegative[_\s]prompt\b/i`. -/
def negativePromptPat (l : List Char) : Bool :=
  searchFrom
    (fun p t => prevBoundary p && pre "negative" t &&
      (match t.drop 8 with
       | c :: r => (c == '_' || isSpaceChar c) && pre "prompt" r && nextBoundary (r.drop 6)
       | [] => false))
    none l

/-- Regex `/\bsampler\b.*\b(euler|ddim|dpm|lms|heun)\b/i` (`.` does not
match a newline). -/
def samplerPat (l : List Char) : Bool :=
  searchFrom
    (fun p t => prevBoundary p && pre "sampler" t && nextBoundary (t.drop 7) &&
      (["euler", "ddim", "dpm", "lms", "heun"].any (fun w =>
        wbTokenFrom w (some 'r') ((t.drop 7).takeWhile (fun c => c != '\n')))))
    none l

/-- Regex `/\bsteps[:\s]+\d+/i`. -/
def stepsPat (l : List Char) : Bool :=
  searchFrom
    (fun p t => prevBoundary p && pre "steps" t &&
      (let r := t.drop 5
       let k := countLeading colonSpace r
       decide (1 ≤ k) &&
         (match r.drop k with
          | d :: _ => d.isDigit
          | [] => false)))
    none l

/-- Regex `/\bcfg[_\s]scale[:\s]+\d/i`. -/
def cfgScalePat (l : List Char) : Bool :=
  searchFrom
    (fun p t => prevBoundary p && pre "cfg" t &&
      (match t.drop 3 with
       | c :: r =>
         (c == '_' || isSpaceChar c) && pre "scale" r &&
           (let r2 := r.drop 5
            let k := countLeading colonSpace r2
            decide (1 ≤ k) &&
              (match r2.drop k with
               | d :: _ => d.isDigit
               | [] => false))
       | [] => false))
    none l

/-- Regex `/\bseed[:\s]+\d{5,}/i`. -/
def seedPat (l : List Char) : Bool :=
  searchFrom
    (fun p t => prevBoundary p && pre "seed" t &&
      (let r := t.drop 4
       let k := countLeading colonSpace r
       decide (1 ≤ k) && decide (5 ≤ countLeading Char.isDigit (r.drop k))))
    none l

/-- Regex `/\bmodel[:\s].*\b(sd|sdxl|flux|checkpoint)\b/i`. -/
def modelPat (l : List Char) : Bool :=
  searchFrom
    (fun p t => prevBoundary p && pre "model" t &&
      (match t.drop 5 with
       | c :: r =>
         colonSpace c &&
           (["sd", "sdxl", "flux", "checkpoint"].any (fun w =>
             wbTokenFrom w (some c) (r.takeWhile (fun d => d != '\n'))))
       | [] => false))
    none l

/-- `AI_PARAM_PATTERNS`: does any generation-parameter regex match the
lowercased text?  (All push the same marker, per description field.) -/
def aiParamMatch (l : List Char) : Bool :=
  negativePromptPat l || samplerPat l || stepsPat l || cfgScalePat l || seedPat l || modelPat l

/-- Regex `/\bai[.\-\s]?generated\b/i` or `/\bsynthetically\s+generated\b/i`
on the concatenated text blob. -/
def explicitDeclMatch (l : List Char) : Bool :=
  searchFrom
    (fun p t => prevBoundary p && pre "ai" t &&
      ((pre "generated" (t.drop 2) && nextBoundary (t.drop 11)) ||
        (match t.drop 2 with
         | c :: r => dotDashSpace c && pre "generated" r && nextBoundary (r.drop 9)
         | [] => false)))
    none l ||
  searchFrom
    (fun p t => prevBoundary p && pre "synthetically" t &&
      (let r := t.drop 13
       let k := countLeading isSpaceChar r
       decide (1 ≤ k) && pre "generated" (r.drop k) && nextBoundary (r.drop (k + 9))))
    none l

/-- The markers (and diagnostic tool string) contributed by the parsed
metadata block of `detectMetadata` (source steps a–d). -/
def metaTagMarkers (t : MetaTags) : List String × Option String :=
  let dstMarkers : List String :=
    if infixB "trainedalgorithmicmedia" (lcs t.digitalSourceType) ||
        infixB "algorithmicmedia" (lcs t.digitalSourceType) then
      ["DigitalSourceType: trainedAlgorithmicMedia (AI-generated indicator)"]
    else if infixB "compositesynthetic" (lcs t.digitalSourceType) then
      ["DigitalSourceType: compositeSynthetic (synthetic composite)"]
    else []
  let swPairs : List (String × String) :=
    [("Software", t.software), ("CreatorTool", t.creatorTool), ("Creator", t.creator)].filterMap
      (fun kv =>
        if kv.2 != "" && aiSoftwareMatch (lcs kv.2) then
          some (kv.1 ++ ": \"" ++ kv.2 ++ "\"", kv.2)
        else none)
  let descMarkers : List String :=
    t.descFields.filterMap (fun d =>
      if aiParamMatch (lcs d) then some "Generation parameters detected in metadata" else none)
  let blob := String.intercalate " " ([t.software, t.creatorTool, t.creator] ++ t.descFields)
  let declMarkers : List String :=
    if explicitDeclMatch (lcs blob) then
      ["Explicit AI-generation declaration found in metadata"]
    else []
  (dstMarkers ++ swPairs.map Prod.fst ++ descMarkers ++ declMarkers,
   (swPairs.map Prod.snd).head?)

/-- The JPEG quantization-table loop: scan for an `FF DB` segment whose
first 64-byte table has at most 4 distinct values; stops at the first
such table. -/
def qtLoop (bytes : List ℕ) (i : ℕ) : Bool :=
  if i < bytes.length - 70 then
    if bytes.getD i 0 == 0xff && bytes.getD (i + 1) 0 == 0xdb then
      if i + 5 + 64 < bytes.length then
        if ((bytes.drop (i + 5)).take 64).dedup.length ≤ 4 then true
        else qtLoop bytes (i + 1)
      else qtLoop bytes (i + 1)
    else qtLoop bytes (i + 1)
  else false
termination_by bytes.length - i

/-- The container-scan and quantization-heuristic markers of
`detectMetadata` (source steps e–f), read from the raw bytes. -/
def byteMarkers (bytes : List ℕ) : List String :=
  (if infixB "c2pa" (asciiOf bytes) || infixB "C2PA" (asciiOf bytes) then
    ["C2PA Content Credentials detected (may include SynthID)"] else []) ++
  (if infixB "jumb" (asciiOf bytes) || infixB "jumd" (asciiOf bytes) then
    ["JUMBF metadata container detected"] else []) ++
  (if bytes.getD 0 0 == 0xff && bytes.getD 1 0 == 0xd8 && qtLoop bytes 0 then
    ["JPEG quantization table is abnormally uniform (possible AI generation)"] else [])

/-- The full marker list of `detectMetadata`. -/
def metadataMarkersOf (meta : Option MetaTags) (bytes : List ℕ) : List String :=
  (match meta with
   | none => []
   | some t => (metaTagMarkers t).1) ++ byteMarkers bytes

/-- The strong-marker filter used both in `detectMetadata`'s confidence
formula and in the Phase-2 gate of `POST`:
`!m.includes("quantization table") && !m.includes("JUMBF")`. -/
def isStrongMarker (m : String) : Bool :=
  !infixB "quantization table" m.toList && !infixB "JUMBF" m.toList

/-- `detectMetadata(buffer)`, with the `exifr` result supplied as oracle:
`isAI = markers.length > 0`;
`confidence = min(95, 50 + strong * 15 + (markers.length - strong) * 5)`. -/
def detectMetadata (meta : Option MetaTags) (bytes : List ℕ) : MetadataResult :=
  ⟨!(metadataMarkersOf meta bytes).isEmpty,
   if !(metadataMarkersOf meta bytes).isEmpty then
     min 95 (50 + ((metadataMarkersOf meta bytes).filter isStrongMarker).length * 15 +
       ((metadataMarkersOf meta bytes).length -
         ((metadataMarkersOf meta bytes).filter isStrongMarker).length) * 5)
   else 0,
   metadataMarkersOf meta bytes,
   match meta with
   | none => none
   | some t => (metaTagMarkers t).2⟩

/-! ### Classifier adapters -/

/-- The score pair parsed from the local Python classifier's JSON
(`ClassifyResult.scores`; the wrapper's own `verdict`/`confidence`
fields are never read by the decision logic). -/
structure LocalResult where
  artificial : ℚ
  human : ℚ
  deriving DecidableEq

/-- Result of `runHFClassifier`.  `error = true` models the `catch`
branch that returns `{fakeScore: 0, realScore: 0, error: String(err)}`. -/
structure HFResult where
  fakeScore : ℚ
  realScore : ℚ
  error : Bool
  deriving DecidableEq

/-- The per-bucket label aggregation of `runHFClassifier`: sum scores of
labels in {artificial, ai, fake} and {human, real} (case-insensitive). -/
def bucketScores (preds : List (String × ℚ)) : ℚ × ℚ :=
  preds.foldl
    (fun acc p =>
      if String.mk (lcs p.1) = "artificial" ∨ String.mk (lcs p.1) = "ai" ∨
          String.mk (lcs p.1) = "fake" then
        (acc.1 + p.2, acc.2)
      else if String.mk (lcs p.1) = "human" ∨ String.mk (lcs p.1) = "real" then
        (acc.1, acc.2 + p.2)
      else acc)
    (0, 0)

/-- The complement rule: `if (fake === 0 && real > 0) fake = 1 - real;
else if (real === 0 && fake > 0) real = 1 - fake;`. -/
def complementFix (f r : ℚ) : ℚ × ℚ :=
  if f = 0 ∧ 0 < r then (1 - r, r)
  else if r = 0 ∧ 0 < f then (f, 1 - f)
  else (f, r)

/-- `runHFClassifier` on a successful service response (the list of
label/score predictions). -/
def runHFClassifier (preds : List (String × ℚ)) : HFResult :=
  ⟨(complementFix (bucketScores preds).1 (bucketScores preds).2).1,
   (complementFix (bucketScores preds).1 (bucketScores preds).2).2,
   false⟩

/-! ### The `POST` decision pipeline (`classify`) -/

/-- The JSON verdict returned by a successful scan. -/
structure ScanVerdict where
  verdict : String
  confidence : ℚ
  artificial : ℚ
  human : ℚ
  detectionMethod : String
  metadataMarkers : List String
  deriving DecidableEq

/-- Outcome of the pipeline: a verdict, or an HTTP error status. -/
inductive ScanOutcome where
  | ok (v : ScanVerdict)
  | error (status : ℕ) (message : String)
  deriving DecidableEq

/-- Truthiness of `!hf || hf.error` (the remote adapter is unusable). -/
def hfFailed : Option HFResult → Bool
  | none => true
  | some r => r.error

/-- `localFakePct = local ? local.scores.artificial : 0`. -/
def localFakeOf : Option LocalResult → ℚ
  | some x => x.artificial
  | none => 0

/-- `localHumanPct = local ? local.scores.human : 100`. -/
def localHumanOf : Option LocalResult → ℚ
  | some x => x.human
  | none => 100

/-- `hfFakePct = hf && !hf.error ? Math.round(hf.fakeScore * 1000) / 10 : 0`. -/
def hfFakeOf : Option HFResult → ℚ
  | none => 0
  | some r => if r.error then 0 else round1000d10 r.fakeScore

/-- `hfHumanPct = hf && !hf.error ? Math.round(hf.realScore * 1000) / 10 : 100`. -/
def hfHumanOf : Option HFResult → ℚ
  | none => 100
  | some r => if r.error then 100 else round1000d10 r.realScore

/-- Dominant-signal selection: the pair of the model with the higher
fake score (`if (hfFakePct > localFakePct)`), ties going to the local model. -/
def dominantPair (l : Option LocalResult) (h : Option HFResult) : ℚ × ℚ :=
  if localFakeOf l < hfFakeOf h then (hfFakeOf h, hfHumanOf h)
  else (localFakeOf l, localHumanOf l)

/-- `clamp = n => Math.max(0, Math.min(100, Math.round(n * 10) / 10))`. -/
def jsClamp (n : ℚ) : ℚ := max 0 (min 100 (round10 n))

/-- The metadata boost and Phase-4 finalization applied to an adopted
score pair `(a, hm)`. -/
def boostFinalize (m : MetadataResult) (a hm : ℚ) : ScanVerdict :=
  let boosted := m.isAI && decide (hm < a)
  let a2 := if boosted then min (999 / 10) (a * (11 / 10)) else a
  let h2 := if boosted then round10 (100 - a2) else hm
  let fa := jsClamp a2
  let fh := jsClamp h2
  ⟨if 50 < fh then "verified" else "fake",
   if 50 < fh then fh else fa,
   fa, fh,
   if m.isAI then "combined" else "ai-forensics",
   m.markers⟩

/-- Phases 3–4 of `POST` when at least one adapter survived. -/
def phase34 (m : MetadataResult) (l : Option LocalResult) (h : Option HFResult) : ScanVerdict :=
  boostFinalize m (dominantPair l h).1 (dominantPair l h).2

/-- The Phase-1 (watermark) terminal verdict. -/
def phase1Verdict (s : SynthIDResult) (m : MetadataResult) : ScanVerdict :=
  ⟨"fake",
   ((if m.isAI then min 99 (max s.confidence m.confidence + 5) else s.confidence : ℕ) : ℚ),
   ((if m.isAI then min 99 (max s.confidence m.confidence + 5) else s.confidence : ℕ) : ℚ),
   round10 (100 - ((if m.isAI then min 99 (max s.confidence m.confidence + 5)
     else s.confidence : ℕ) : ℚ)),
   if m.isAI then "synthid+metadata" else "synthid",
   dedupFirst (s.signals ++ m.markers)⟩

/-- The metadata-only terminal verdict (Phase 2 and the Phase-3 fallback). -/
def metadataVerdict (m : MetadataResult) : ScanVerdict :=
  ⟨"fake", (m.confidence : ℚ), (m.confidence : ℚ),
   round10 (100 - (m.confidence : ℚ)), "metadata", m.markers⟩

/-- The `POST` decision pipeline after upload validation: raw bytes plus
the two `exifr` oracles and the two adapter outcomes (`none` models a
rejected promise for the local model / a missing remote result). -/
def classify (bytes : List ℕ) (smeta : Option SynthMeta) (mmeta : Option MetaTags)
    (l : Option LocalResult) (h : Option HFResult) : ScanOutcome :=
  if (detectSynthID smeta bytes).detected then
    .ok (phase1Verdict (detectSynthID smeta bytes) (detectMetadata mmeta bytes))
  else if 2 ≤ ((detectMetadata mmeta bytes).markers.filter isStrongMarker).length then
    .ok (metadataVerdict (detectMetadata mmeta bytes))
  else if l.isNone && hfFailed h then
    if (detectMetadata mmeta bytes).isAI then
      .ok (metadataVerdict (detectMetadata mmeta bytes))
    else
      .error 503 "AI detection models unavailable. Please try again shortly."
  else
    .ok (phase34 (detectMetadata mmeta bytes) l h)

/-! ### Spec-side definitions used to compare claims with the code -/

/-- Phase 3–4 outcome computed solely from the surviving remote
adapter's score pair — what claim C3 asserts the code always does when
the local adapter fails. -/
def remoteOnly34 (m : MetadataResult) (r : HFResult) : ScanVerdict :=
  boostFinalize m (round1000d10 r.fakeScore) (round1000d10 r.realScore)

/-- Modelled from claim C4's words: a marker counts as strong unless it
is the quantization-heuristic finding or one of the two container-marker
findings (the C2PA and JUMBF container scans). -/
def specC4Strong (m : String) : Bool :=
  !(m == "JPEG quantization table is abnormally uniform (possible AI generation)") &&
  !(m == "C2PA Content Credentials detected (may include SynthID)") &&
  !(m == "JUMBF metadata container detected")

/-- Modelled from claim C4's words: the provenance confidence formula
with the claim's strong/weak split. -/
def specC4Confidence (markers : List String) : ℕ :=
  if markers.isEmpty then 0
  else min 95 (50 + 15 * (markers.filter specC4Strong).length +
    5 * (markers.length - (markers.filter specC4Strong).length))

/-- Modelled from the amended claim C5: the adapter whose artificial
score is numerically higher is dominant, ties favouring the local
adapter; its score pair is adopted. -/
def specDominant (la lh ra rh : ℚ) : ℚ × ℚ :=
  if ra > la then (ra, rh) else (la, lh)

/-- Modelled from the amended claim C5: whenever provenance flagged AI
the method label becomes "combined", and additionally, when the adopted
artificial score exceeds the human score, artificial is replaced by
`min(99.9, artificial * 1.1)` and human by `100` minus that value
rounded to one decimal; without the provenance flag the method label is
"ai-forensics" and the pair is kept. -/
def specBoost (m : MetadataResult) (p : ℚ × ℚ) : (ℚ × ℚ) × String :=
  if m.isAI then
    if p.1 > p.2 then
      ((min (999 / 10) (p.1 * (11 / 10)),
        round10 (100 - min (999 / 10) (p.1 * (11 / 10)))), "combined")
    else (p, "combined")
  else (p, "ai-forensics")

/-! ### Helper lemmas -/

theorem round10_nonneg {x : ℚ} (hx : 0 ≤ x) : 0 ≤ round10 x := by
  unfold round10 jsRound
  have h : (0 : ℤ) ≤ Int.floor (x * 10 + 1 / 2) :=
    Int.floor_nonneg.mpr (by linarith)
  have h2 : (0 : ℚ) ≤ (Int.floor (x * 10 + 1 / 2) : ℚ) := by exact_mod_cast h
  linarith

theorem round10_le_100 {x : ℚ} (hx : x ≤ 100) : round10 x ≤ 100 := by
  unfold round10 jsRound
  have h : Int.floor (x * 10 + 1 / 2) < 1001 := by
    rw [Int.floor_lt]
    push_cast
    linarith
  have h2 : (Int.floor (x * 10 + 1 / 2) : ℚ) ≤ 1000 := by exact_mod_cast (by omega : Int.floor (x * 10 + 1 / 2) ≤ 1000)
  linarith

theorem oneDecimal_round10 (x : ℚ) : oneDecimal (round10 x) :=
  ⟨jsRound (x * 10), rfl⟩

theorem oneDecimal_natCast (n : ℕ) : oneDecimal (n : ℚ) :=
  ⟨(n : ℤ) * 10, by push_cast; ring⟩

theorem jsClamp_nonneg (n : ℚ) : 0 ≤ jsClamp n := le_max_left 0 _

theorem jsClamp_le_100 (n : ℚ) : jsClamp n ≤ 100 :=
  max_le (by norm_num) (min_le_left _ _)

theorem jsClamp_oneDecimal (n : ℚ) : oneDecimal (jsClamp n) := by
  unfold jsClamp
  rcases oneDecimal_round10 n with ⟨k, hk⟩
  rw [hk]
  by_cases h1 : (100 : ℚ) ≤ (k : ℚ) / 10
  · rw [min_eq_left h1, max_eq_right (by norm_num : (0 : ℚ) ≤ 100)]
    exact ⟨1000, by norm_num⟩
  · rw [min_eq_right (le_of_not_le h1)]
    by_cases h2 : (0 : ℚ) ≤ (k : ℚ) / 10
    · rw [max_eq_right h2]
      exact ⟨k, rfl⟩
    · rw [max_eq_left (le_of_not_le h2)]
      exact ⟨0, by norm_num⟩

theorem synthAggregate_conf_le (signals : List String) :
    (synthAggregate signals).confidence ≤ 98 := by
  simp only [synthAggregate]
  split
  · exact min_le_left _ _
  · omega

theorem synthAggregate_conf_ge (signals : List String)
    (h : (synthAggregate signals).detected = true) :
    40 ≤ (synthAggregate signals).confidence := by
  simp only [synthAggregate] at h ⊢
  rw [h, if_pos rfl]
  omega

theorem detectSynthID_conf_le (meta : Option SynthMeta) (bytes : List ℕ) :
    (detectSynthID meta bytes).confidence ≤ 98 :=
  synthAggregate_conf_le _

theorem detectSynthID_conf_ge (meta : Option SynthMeta) (bytes : List ℕ)
    (h : (detectSynthID meta bytes).detected = true) :
    40 ≤ (detectSynthID meta bytes).confidence :=
  synthAggregate_conf_ge _ h

theorem detectMetadata_conf_le (meta : Option MetaTags) (bytes : List ℕ) :
    (detectMetadata meta bytes).confidence ≤ 95 := by
  simp only [detectMetadata]
  split
  · exact min_le_left _ _
  · omega

/-- Phase-1 control flow: a watermark detection short-circuits. -/
theorem classify_phase1 (bytes : List ℕ) (smeta : Option SynthMeta) (mmeta : Option MetaTags)
    (l : Option LocalResult) (h : Option HFResult)
    (hdet : (detectSynthID smeta bytes).detected = true) :
    classify bytes smeta mmeta l h =
      .ok (phase1Verdict (detectSynthID smeta bytes) (detectMetadata mmeta bytes)) := by
  unfold classify
  rw [if_pos hdet]

/-- Phase-3/4 control flow: no watermark, weak metadata, and at least
one surviving adapter. -/
theorem classify_phase34 (bytes : List ℕ) (smeta : Option SynthMeta) (mmeta : Option MetaTags)
    (l : Option LocalResult) (h : Option HFResult)
    (hdet : (detectSynthID smeta bytes).detected = false)
    (hstr : ((detectMetadata mmeta bytes).markers.filter isStrongMarker).length < 2)
    (havail : (l.isNone && hfFailed h) = false) :
    classify bytes smeta mmeta l h = .ok (phase34 (detectMetadata mmeta bytes) l h) := by
  unfold classify
  rw [if_neg (by simp [hdet]), if_neg (by omega), if_neg (by simp [havail])]

/-- The Phase-3/4 method label only depends on the provenance flag. -/
theorem phase34_method (m : MetadataResult) (l : Option LocalResult) (h : Option HFResult) :
    (phase34 m l h).detectionMethod = if m.isAI then "combined" else "ai-forensics" := rfl

/-! ### Claim theorems -/

/-- C1: whenever the Watermark Signal Detector reports detected (its
signal list is non-empty), `classify` terminates in Phase 1
independently of both classifier adapters and returns verdict `fake`
(manipulated) with confidence
`min(99, max(watermarkConf, provenanceConf) + 5)` when the Provenance
Marker Detector also flags AI, else `watermarkConf`; in all such cases
the confidence is at least 40. -/
theorem watermark_phase1_terminal (bytes : List ℕ) (smeta : Option SynthMeta)
    (mmeta : Option MetaTags) (l : Option LocalResult) (h : Option HFResult)
    (hdet : (detectSynthID smeta bytes).detected = true) :
    (∀ l2 h2, classify bytes smeta mmeta l2 h2 = classify bytes smeta mmeta l h) ∧
    ∃ v, classify bytes smeta mmeta l h = .ok v ∧
      v.verdict = "fake" ∧
      v.confidence = ((if (detectMetadata mmeta bytes).isAI then
          min 99 (max (detectSynthID smeta bytes).confidence
            (detectMetadata mmeta bytes).confidence + 5)
        else (detectSynthID smeta bytes).confidence : ℕ) : ℚ) ∧
      40 ≤ v.confidence := by
  constructor
  · intro l2 h2
    rw [classify_phase1 _ _ _ _ _ hdet, classify_phase1 _ _ _ _ _ hdet]
  · refine ⟨_, classify_phase1 _ _ _ _ _ hdet, rfl, rfl, ?_⟩
    have h40 : 40 ≤ (detectSynthID smeta bytes).confidence :=
      detectSynthID_conf_ge _ _ hdet
    simp only [phase1Verdict]
    have hn : 40 ≤ (if (detectMetadata mmeta bytes).isAI then
        min 99 (max (detectSynthID smeta bytes).confidence
          (detectMetadata mmeta bytes).confidence + 5)
      else (detectSynthID smeta bytes).confidence) := by
      split <;> omega
    exact_mod_cast hn

/-- Witness for C1 on a buffer holding the ASCII marker "synthid". -/
theorem watermark_phase1_terminal_witness :
    (∀ l2 h2, classify [115, 121, 110, 116, 104, 105, 100] none none l2 h2 =
      classify [115, 121, 110, 116, 104, 105, 100] none none none none) ∧
    ∃ v, classify [115, 121, 110, 116, 104, 105, 100] none none none none = .ok v ∧
      v.verdict = "fake" ∧
      v.confidence = ((if (detectMetadata none [115, 121, 110, 116, 104, 105, 100]).isAI then
          min 99 (max (detectSynthID none [115, 121, 110, 116, 104, 105, 100]).confidence
            (detectMetadata none [115, 121, 110, 116, 104, 105, 100]).confidence + 5)
        else (detectSynthID none [115, 121, 110, 116, 104, 105, 100]).confidence : ℕ) : ℚ) ∧
      40 ≤ v.confidence :=
  watermark_phase1_terminal [115, 121, 110, 116, 104, 105, 100] none none none none (by decide)

/-- C2: with no watermark detection and fewer than two strong provenance
markers, if the local adapter is rejected and the remote adapter is
missing or errored, `classify` returns the metadata-based verdict
(fake / provenance confidence / method "metadata") exactly when the
Provenance Marker Detector had `isAI = true`, and otherwise the 503
service-unavailable error — never a fabricated verdict. -/
theorem both_adapters_fail_dichotomy (bytes : List ℕ) (smeta : Option SynthMeta)
    (mmeta : Option MetaTags) (h : Option HFResult)
    (hdet : (detectSynthID smeta bytes).detected = false)
    (hstr : ((detectMetadata mmeta bytes).markers.filter isStrongMarker).length < 2)
    (hfail : hfFailed h = true) :
    classify bytes smeta mmeta none h =
      if (detectMetadata mmeta bytes).isAI then
        .ok ⟨"fake", ((detectMetadata mmeta bytes).confidence : ℚ),
          ((detectMetadata mmeta bytes).confidence : ℚ),
          round10 (100 - ((detectMetadata mmeta bytes).confidence : ℚ)),
          "metadata", (detectMetadata mmeta bytes).markers⟩
      else .error 503 "AI detection models unavailable. Please try again shortly." := by
  unfold classify
  rw [if_neg (by simp [hdet]), if_neg (by omega),
    if_pos (by simp [Option.isNone, hfail])]
  rfl

/-- Witness for C2 on an empty buffer with a missing remote result. -/
theorem both_adapters_fail_dichotomy_witness :
    classify [] none none none none =
      if (detectMetadata none []).isAI then
        .ok ⟨"fake", ((detectMetadata none []).confidence : ℚ),
          ((detectMetadata none []).confidence : ℚ),
          round10 (100 - ((detectMetadata none []).confidence : ℚ)),
          "metadata", (detectMetadata none []).markers⟩
      else .error 503 "AI detection models unavailable. Please try again shortly." :=
  both_adapters_fail_dichotomy [] none none none (by decide) (by decide) (by decide)

/-- C8: the PNG chunk scanner is total by construction; it validates the
chunk length field against the buffer bounds before reading and stops,
returning only the signals already gathered, at the first malformed or
truncated chunk, and every decoded chunk payload is capped at 4096
bytes. -/
theorem png_scan_stops_and_caps :
    (∀ bytes offset, (offset + 8 + chunkLenAt bytes offset > bytes.length ∨
        offset + 12 + chunkLenAt bytes offset > bytes.length) →
      pngScanFrom bytes offset = []) ∧
    (∀ bytes offset, (chunkPayload bytes offset).length ≤ 4096) := by
  constructor
  · intro bytes offset hmal
    by_cases ho : offset + 8 ≤ bytes.length
    · unfold pngScanFrom
      rw [dif_pos ho, dif_pos hmal]
    · unfold pngScanFrom
      rw [dif_neg ho]
  · intro bytes offset
    simp only [chunkPayload, asciiOf, List.length_map, List.length_take]
    omega

/-- Witness for C8 on a PNG whose first chunk declares length 65536 in a
16-byte buffer. -/
theorem png_scan_stops_and_caps_witness :
    pngScanFrom [137, 80, 0, 0, 0, 0, 0, 0, 0, 1, 0, 0, 116, 69, 88, 116] 8 = [] ∧
    (chunkPayload [137, 80, 0, 0, 0, 0, 0, 0, 0, 1, 0, 0, 116, 69, 88, 116] 8).length ≤ 4096 :=
  ⟨png_scan_stops_and_caps.1 [137, 80, 0, 0, 0, 0, 0, 0, 0, 1, 0, 0, 116, 69, 88, 116] 8
    (by decide),
   png_scan_stops_and_caps.2 [137, 80, 0, 0, 0, 0, 0, 0, 0, 1, 0, 0, 116, 69, 88, 116] 8⟩

/-- C9: in the remote classifier adapter, when exactly one label bucket
carries mass, the other bucket is set to one minus the matched bucket's
sum, so both scores are populated. -/
theorem hf_complement_rule (preds : List (String × ℚ)) :
    ((bucketScores preds).1 = 0 → 0 < (bucketScores preds).2 →
      (runHFClassifier preds).fakeScore = 1 - (bucketScores preds).2 ∧
      (runHFClassifier preds).realScore = (bucketScores preds).2) ∧
    ((bucketScores preds).2 = 0 → 0 < (bucketScores preds).1 →
      (runHFClassifier preds).fakeScore = (bucketScores preds).1 ∧
      (runHFClassifier preds).realScore = 1 - (bucketScores preds).1) := by
  constructor
  · intro h0 hpos
    unfold runHFClassifier complementFix
    rw [if_pos ⟨h0, hpos⟩]
    exact ⟨rfl, rfl⟩
  · intro h0 hpos
    unfold runHFClassifier complementFix
    rw [if_neg (by rintro ⟨h1, h2⟩; rw [h0] at h2; exact lt_irrefl 0 h2),
      if_pos ⟨h0, hpos⟩]
    exact ⟨rfl, rfl⟩

unseal Rat.add Rat.sub Rat.mul Rat.inv in
/-- Witness for C9 with a single "real" label of score 0.3. -/
theorem hf_complement_rule_witness :
    (runHFClassifier [("real", 3 / 10)]).fakeScore = 1 - (bucketScores [("real", 3 / 10)]).2 ∧
    (runHFClassifier [("real", 3 / 10)]).realScore = (bucketScores [("real", 3 / 10)]).2 :=
  (hf_complement_rule [("real", 3 / 10)]).1 (by decide) (by decide)

/-- C10: every verdict decided before Phase 4 (methods "synthid",
"synthid+metadata", "metadata") has artificial score equal to the
confidence and human score equal to 100 minus the confidence rounded to
one decimal. -/
theorem early_verdict_score_coupling (bytes : List ℕ) (smeta : Option SynthMeta)
    (mmeta : Option MetaTags) (l : Option LocalResult) (h : Option HFResult) (v : ScanVerdict)
    (hv : classify bytes smeta mmeta l h = .ok v)
    (hm : v.detectionMethod = "synthid" ∨ v.detectionMethod = "synthid+metadata" ∨
      v.detectionMethod = "metadata") :
    v.artificial = v.confidence ∧ v.human = round10 (100 - v.confidence) := by
  unfold classify at hv
  split at hv
  · simp only [ScanOutcome.ok.injEq] at hv
    subst hv
    exact ⟨rfl, rfl⟩
  · split at hv
    · simp only [ScanOutcome.ok.injEq] at hv
      subst hv
      exact ⟨rfl, rfl⟩
    · split at hv
      · split at hv
        · simp only [ScanOutcome.ok.injEq] at hv
          subst hv
          exact ⟨rfl, rfl⟩
        · exact ScanOutcome.noConfusion hv
      · simp only [ScanOutcome.ok.injEq] at hv
        subst hv
        rw [phase34_method] at hm
        exfalso
        rcases hm with h1 | h1 | h1 <;> revert h1 <;> split <;> decide

unseal Rat.add Rat.sub Rat.mul Rat.inv in
/-- Witness for C10 on the Phase-1 "synthid" verdict. -/
theorem early_verdict_score_coupling_witness :
    (⟨"fake", 60, 60, 40, "synthid", ["SynthID marker in binary payload"]⟩ :
      ScanVerdict).artificial =
      (⟨"fake", 60, 60, 40, "synthid", ["SynthID marker in binary payload"]⟩ :
        ScanVerdict).confidence ∧
    (⟨"fake", 60, 60, 40, "synthid", ["SynthID marker in binary payload"]⟩ :
      ScanVerdict).human =
      round10 (100 - (⟨"fake", 60, 60, 40, "synthid", ["SynthID marker in binary payload"]⟩ :
        ScanVerdict).confidence) :=
  early_verdict_score_coupling [115, 121, 110, 116, 104, 105, 100] none none none none
    ⟨"fake", 60, 60, 40, "synthid", ["SynthID marker in binary payload"]⟩
    (by decide) (Or.inl rfl)

unseal Rat.add Rat.sub Rat.mul Rat.inv in
/-- C3 counterexample: with the local adapter failed and the remote
adapter succeeding with zero scores (no label matched either bucket),
the tie in `hfFakePct > localFakePct` selects the defaulted local pair
(0, 100), so the pipeline returns a 100% human verdict that is not
derived from the surviving remote result (which would give verdict
"fake" with zero scores). -/
theorem local_failure_default_leak :
    classify [] none none none (some ⟨0, 0, false⟩) =
      .ok ⟨"verified", 100, 0, 100, "ai-forensics", []⟩ ∧
    ScanOutcome.ok (remoteOnly34 (detectMetadata none []) ⟨0, 0, false⟩) ≠
      classify [] none none none (some ⟨0, 0, false⟩) := by
  exact ⟨by decide, by decide⟩

/-- C3 amended: when the local adapter fails and the remote adapter
survives, the outcome is derived from the remote score pair whenever the
remote artificial percentage (rounded to one decimal) is positive; when
it is zero the defaulted local pair (0, 100) is adopted instead,
yielding an authentic verdict with confidence 100. -/
theorem local_failure_remote_derived (bytes : List ℕ) (smeta : Option SynthMeta)
    (mmeta : Option MetaTags) (r : HFResult)
    (hdet : (detectSynthID smeta bytes).detected = false)
    (hstr : ((detectMetadata mmeta bytes).markers.filter isStrongMarker).length < 2)
    (herr : r.error = false) :
    (0 < round1000d10 r.fakeScore →
      classify bytes smeta mmeta none (some r) =
        .ok (remoteOnly34 (detectMetadata mmeta bytes) r)) ∧
    (¬ 0 < round1000d10 r.fakeScore →
      ∃ v, classify bytes smeta mmeta none (some r) = .ok v ∧
        v.artificial = 0 ∧ v.human = 100 ∧ v.verdict = "verified" ∧ v.confidence = 100) := by
  have havail : ((none : Option LocalResult).isNone && hfFailed (some r)) = false := by
    simp [hfFailed, herr]
  constructor
  · intro hpos
    rw [classify_phase34 _ _ _ _ _ hdet hstr havail]
    have hd : dominantPair none (some r) =
        (round1000d10 r.fakeScore, round1000d10 r.realScore) := by
      unfold dominantPair
      rw [if_pos (by simpa [localFakeOf, hfFakeOf, herr] using hpos)]
      simp [hfFakeOf, hfHumanOf, herr]
    unfold phase34
    rw [hd]
    rfl
  · intro hneg
    have hd : dominantPair none (some r) = (0, 100) := by
      unfold dominantPair
      rw [if_neg (by simpa [localFakeOf, hfFakeOf, herr] using hneg)]
      rfl
    refine ⟨phase34 (detectMetadata mmeta bytes) none (some r),
      classify_phase34 _ _ _ _ _ hdet hstr havail, ?_, ?_, ?_, ?_⟩ <;>
    · unfold phase34
      rw [hd]
      unfold boostFinalize
      have hb : (decide ((100 : ℚ) < (0 : ℚ))) = false := by norm_num
      simp only [hb, Bool.and_false, if_neg Bool.false_ne_true]
      have h0 : jsClamp (0 : ℚ) = 0 := by
        unfold jsClamp round10 jsRound
        norm_num
      have h100 : jsClamp (100 : ℚ) = 100 := by
        unfold jsClamp round10 jsRound
        norm_num
      simp [h0, h100]
      all_goals norm_num

unseal Rat.add Rat.sub Rat.mul Rat.inv in
/-- Witness for amended C3 with a surviving remote result of 50%/50%. -/
theorem local_failure_remote_derived_witness :
    classify [] none none none (some ⟨1 / 2, 1 / 2, false⟩) =
      .ok (remoteOnly34 (detectMetadata none []) ⟨1 / 2, 1 / 2, false⟩) :=
  (local_failure_remote_derived [] none none ⟨1 / 2, 1 / 2, false⟩
    (by decide) (by decide) rfl).1 (by decide)

/-- C4 counterexample: on a buffer holding only the ASCII text "c2pa"
the Provenance Marker Detector produces exactly the C2PA
container-marker finding; the code counts it as strong (confidence 65),
while the claim's formula — which excludes container markers from the
strong count — predicts 55. -/
theorem metadata_c2pa_counted_strong :
    (detectMetadata none [99, 50, 112, 97]).markers =
      ["C2PA Content Credentials detected (may include SynthID)"] ∧
    (detectMetadata none [99, 50, 112, 97]).confidence = 65 ∧
    specC4Confidence (detectMetadata none [99, 50, 112, 97]).markers = 55 ∧
    (detectMetadata none [99, 50, 112, 97]).confidence ≠
      specC4Confidence (detectMetadata none [99, 50, 112, 97]).markers := by
  exact ⟨by decide, by decide, by decide, by decide⟩

/-- C4 amended: `isAI` holds exactly when the marker list is non-empty,
and the confidence is 0 with no markers and otherwise
`min(95, 50 + 15*countStrong + 5*countWeak)`, where the strong count
excludes exactly the markers whose label contains "quantization table"
or "JUMBF" — so the quantization-heuristic and JUMBF findings are weak,
but the C2PA container finding counts as strong. -/
theorem metadata_confidence_characterization (meta : Option MetaTags) (bytes : List ℕ) :
    (detectMetadata meta bytes).isAI = !(detectMetadata meta bytes).markers.isEmpty ∧
    (detectMetadata meta bytes).confidence =
      (if (detectMetadata meta bytes).markers.isEmpty then 0 else
        min 95 (50 + 15 * ((detectMetadata meta bytes).markers.filter isStrongMarker).length +
          5 * ((detectMetadata meta bytes).markers.length -
            ((detectMetadata meta bytes).markers.filter isStrongMarker).length))) ∧
    isStrongMarker "C2PA Content Credentials detected (may include SynthID)" = true := by
  refine ⟨rfl, ?_, by decide⟩
  cases hE : (metadataMarkersOf meta bytes).isEmpty
  · simp [detectMetadata, hE]
    omega
  · simp [detectMetadata, hE]

/-- The code's dominant-pair selection agrees with the claim's phrasing
(higher artificial score wins, ties favour the local adapter). -/
theorem dominantPair_eq_spec (l : Option LocalResult) (h : Option HFResult) :
    dominantPair l h =
      specDominant (localFakeOf l) (localHumanOf l) (hfFakeOf h) (hfHumanOf h) := rfl

/-- Field-level agreement of the code's boost/finalize step with the
amended claim's boost description. -/
theorem boostFinalize_eq_spec (m : MetadataResult) (a hm : ℚ) :
    (boostFinalize m a hm).detectionMethod = (specBoost m (a, hm)).2 ∧
    (boostFinalize m a hm).artificial = jsClamp (specBoost m (a, hm)).1.1 ∧
    (boostFinalize m a hm).human = jsClamp (specBoost m (a, hm)).1.2 := by
  unfold boostFinalize specBoost
  cases hA : m.isAI
  · simp [hA]
  · by_cases hgt : hm < a
    · simp [hA, hgt]
    · have hgt2 : ¬ a > hm := hgt
      simp [hA, hgt, hgt2]

unseal Rat.add Rat.sub Rat.mul Rat.inv in
/-- C5 counterexample: JUMBF-marker input (provenance `isAI` true, one
weak marker) with a local pair (20, 80) and no remote result: the
dominant pair is local, no boost applies (artificial 20 does not exceed
human 80, scores returned unchanged), yet the method label is
"combined", not "ai-forensics" as the claim predicts for the unboosted
case. -/
theorem combined_label_without_boost :
    classify [106, 117, 109, 98] none none (some ⟨20, 80⟩) none =
      .ok ⟨"verified", 80, 20, 80, "combined", ["JUMBF metadata container detected"]⟩ ∧
    ¬ ((80 : ℚ) < 20) ∧ "combined" ≠ "ai-forensics" := by
  exact ⟨by decide, by norm_num, by decide⟩

/-- C5 amended: in Phase 3 the adapter with the numerically higher
artificial score is dominant (ties favouring the local adapter) and its
score pair is adopted; when the Provenance Marker Detector had
`isAI = true` the method label becomes "combined" (whether or not a
boost applies), and additionally, when the dominant artificial score
exceeds the human score, artificial becomes `min(99.9, artificial*1.1)`
and human `100` minus that value rounded to one decimal; without the
provenance flag the label is "ai-forensics" and the pair is unchanged. -/
theorem phase3_selection_boost (bytes : List ℕ) (smeta : Option SynthMeta)
    (mmeta : Option MetaTags) (l : Option LocalResult) (h : Option HFResult)
    (hdet : (detectSynthID smeta bytes).detected = false)
    (hstr : ((detectMetadata mmeta bytes).markers.filter isStrongMarker).length < 2)
    (havail : (l.isNone && hfFailed h) = false) :
    ∃ v, classify bytes smeta mmeta l h = .ok v ∧
      v.detectionMethod =
        (specBoost (detectMetadata mmeta bytes)
          (specDominant (localFakeOf l) (localHumanOf l) (hfFakeOf h) (hfHumanOf h))).2 ∧
      v.artificial =
        jsClamp (specBoost (detectMetadata mmeta bytes)
          (specDominant (localFakeOf l) (localHumanOf l) (hfFakeOf h) (hfHumanOf h))).1.1 ∧
      v.human =
        jsClamp (specBoost (detectMetadata mmeta bytes)
          (specDominant (localFakeOf l) (localHumanOf l) (hfFakeOf h) (hfHumanOf h))).1.2 := by
  refine ⟨_, classify_phase34 _ _ _ _ _ hdet hstr havail, ?_, ?_, ?_⟩
  · rw [show phase34 (detectMetadata mmeta bytes) l h =
        boostFinalize (detectMetadata mmeta bytes) (dominantPair l h).1 (dominantPair l h).2
      from rfl, dominantPair_eq_spec]
    exact (boostFinalize_eq_spec _ _ _).1
  · rw [show phase34 (detectMetadata mmeta bytes) l h =
        boostFinalize (detectMetadata mmeta bytes) (dominantPair l h).1 (dominantPair l h).2
      from rfl, dominantPair_eq_spec]
    exact (boostFinalize_eq_spec _ _ _).2.1
  · rw [show phase34 (detectMetadata mmeta bytes) l h =
        boostFinalize (detectMetadata mmeta bytes) (dominantPair l h).1 (dominantPair l h).2
      from rfl, dominantPair_eq_spec]
    exact (boostFinalize_eq_spec _ _ _).2.2

unseal Rat.add Rat.sub Rat.mul Rat.inv in
/-- Witness for amended C5: JUMBF-marker input with a local pair
(80, 20): provenance is flagged, the boost applies. -/
theorem phase3_selection_boost_witness :
    ∃ v, classify [106, 117, 109, 98] none none (some ⟨80, 20⟩) none = .ok v ∧
      v.detectionMethod =
        (specBoost (detectMetadata none [106, 117, 109, 98])
          (specDominant (localFakeOf (some ⟨80, 20⟩)) (localHumanOf (some ⟨80, 20⟩))
            (hfFakeOf none) (hfHumanOf none))).2 ∧
      v.artificial =
        jsClamp (specBoost (detectMetadata none [106, 117, 109, 98])
          (specDominant (localFakeOf (some ⟨80, 20⟩)) (localHumanOf (some ⟨80, 20⟩))
            (hfFakeOf none) (hfHumanOf none))).1.1 ∧
      v.human =
        jsClamp (specBoost (detectMetadata none [106, 117, 109, 98])
          (specDominant (localFakeOf (some ⟨80, 20⟩)) (localHumanOf (some ⟨80, 20⟩))
            (hfFakeOf none) (hfHumanOf none))).1.2 :=
  phase3_selection_boost [106, 117, 109, 98] none none (some ⟨80, 20⟩) none
    (by decide) (by decide) (by decide)

/-- Decomposition of the Phase-3/4 result: both reported scores are
clamped values, and verdict and confidence follow the final human
score. -/
theorem phase34_decomp (m : MetadataResult) (l : Option LocalResult) (h : Option HFResult) :
    ∃ x y : ℚ, phase34 m l h =
      ⟨if 50 < jsClamp y then "verified" else "fake",
       if 50 < jsClamp y then jsClamp y else jsClamp x,
       jsClamp x, jsClamp y,
       if m.isAI then "combined" else "ai-forensics", m.markers⟩ := by
  unfold phase34 boostFinalize
  exact ⟨_, _, rfl⟩

/-- Bounds for the early confidence-coupled verdict fields. -/
theorem metaStyleBounds (n : ℕ) (hn : n ≤ 100) :
    (0 ≤ (n : ℚ) ∧ (n : ℚ) ≤ 100 ∧ oneDecimal (n : ℚ)) ∧
    (0 ≤ round10 (100 - (n : ℚ)) ∧ round10 (100 - (n : ℚ)) ≤ 100 ∧
      oneDecimal (round10 (100 - (n : ℚ)))) := by
  have h1 : (0 : ℚ) ≤ (n : ℚ) := Nat.cast_nonneg n
  have h2 : (n : ℚ) ≤ 100 := by exact_mod_cast hn
  exact ⟨⟨h1, h2, oneDecimal_natCast n⟩,
    round10_nonneg (by linarith), round10_le_100 (by linarith), oneDecimal_round10 _⟩

/-- C6: every input reaching Phase 4 yields clamped, one-decimal scores
in [0, 100]; the verdict is "fake" (manipulated) exactly when the final
human score is at most 50 and "verified" (authentic) otherwise, and the
confidence is the score on the chosen verdict's side. -/
theorem phase4_finalize (bytes : List ℕ) (smeta : Option SynthMeta) (mmeta : Option MetaTags)
    (l : Option LocalResult) (h : Option HFResult)
    (hdet : (detectSynthID smeta bytes).detected = false)
    (hstr : ((detectMetadata mmeta bytes).markers.filter isStrongMarker).length < 2)
    (havail : (l.isNone && hfFailed h) = false) :
    ∃ v, classify bytes smeta mmeta l h = .ok v ∧
      (0 ≤ v.artificial ∧ v.artificial ≤ 100 ∧ oneDecimal v.artificial) ∧
      (0 ≤ v.human ∧ v.human ≤ 100 ∧ oneDecimal v.human) ∧
      v.verdict = (if v.human ≤ 50 then "fake" else "verified") ∧
      v.confidence = (if v.human ≤ 50 then v.artificial else v.human) := by
  obtain ⟨x, y, hxy⟩ := phase34_decomp (detectMetadata mmeta bytes) l h
  refine ⟨_, classify_phase34 _ _ _ _ _ hdet hstr havail, ?_⟩
  rw [hxy]
  refine ⟨⟨jsClamp_nonneg x, jsClamp_le_100 x, jsClamp_oneDecimal x⟩,
    ⟨jsClamp_nonneg y, jsClamp_le_100 y, jsClamp_oneDecimal y⟩, ?_, ?_⟩
  · show (if 50 < jsClamp y then "verified" else "fake") =
      if jsClamp y ≤ 50 then "fake" else "verified"
    rcases le_or_lt (jsClamp y) 50 with hy | hy
    · rw [if_neg (not_lt.mpr hy), if_pos hy]
    · rw [if_pos hy, if_neg (not_le.mpr hy)]
  · show (if 50 < jsClamp y then jsClamp y else jsClamp x) =
      if jsClamp y ≤ 50 then jsClamp x else jsClamp y
    rcases le_or_lt (jsClamp y) 50 with hy | hy
    · rw [if_neg (not_lt.mpr hy), if_pos hy]
    · rw [if_pos hy, if_neg (not_le.mpr hy)]

unseal Rat.add Rat.sub Rat.mul Rat.inv in
/-- Witness for C6 with a local pair (30, 70) and no remote result. -/
theorem phase4_finalize_witness :
    ∃ v, classify [] none none (some ⟨30, 70⟩) none = .ok v ∧
      (0 ≤ v.artificial ∧ v.artificial ≤ 100 ∧ oneDecimal v.artificial) ∧
      (0 ≤ v.human ∧ v.human ≤ 100 ∧ oneDecimal v.human) ∧
      v.verdict = (if v.human ≤ 50 then "fake" else "verified") ∧
      v.confidence = (if v.human ≤ 50 then v.artificial else v.human) :=
  phase4_finalize [] none none (some ⟨30, 70⟩) none (by decide) (by decide) (by decide)

/-- C7: every ScanVerdict returned by any phase of `classify` carries a
confidence and both scores within [0.0, 100.0] with at most one decimal
place. -/
theorem verdict_fields_bounded (bytes : List ℕ) (smeta : Option SynthMeta)
    (mmeta : Option MetaTags) (l : Option LocalResult) (h : Option HFResult) (v : ScanVerdict)
    (hv : classify bytes smeta mmeta l h = .ok v) :
    (0 ≤ v.confidence ∧ v.confidence ≤ 100 ∧ oneDecimal v.confidence) ∧
    (0 ≤ v.artificial ∧ v.artificial ≤ 100 ∧ oneDecimal v.artificial) ∧
    (0 ≤ v.human ∧ v.human ≤ 100 ∧ oneDecimal v.human) := by
  unfold classify at hv
  split at hv
  · simp only [ScanOutcome.ok.injEq] at hv
    subst hv
    obtain ⟨hA, hB⟩ := metaStyleBounds
      (if (detectMetadata mmeta bytes).isAI then
        min 99 (max (detectSynthID smeta bytes).confidence
          (detectMetadata mmeta bytes).confidence + 5)
      else (detectSynthID smeta bytes).confidence)
      (by have := detectSynthID_conf_le smeta bytes; split <;> omega)
    exact ⟨hA, hA, hB⟩
  · split at hv
    · simp only [ScanOutcome.ok.injEq] at hv
      subst hv
      obtain ⟨hA, hB⟩ := metaStyleBounds (detectMetadata mmeta bytes).confidence
        (by have := detectMetadata_conf_le mmeta bytes; omega)
      exact ⟨hA, hA, hB⟩
    · split at hv
      · split at hv
        · simp only [ScanOutcome.ok.injEq] at hv
          subst hv
          obtain ⟨hA, hB⟩ := metaStyleBounds (detectMetadata mmeta bytes).confidence
            (by have := detectMetadata_conf_le mmeta bytes; omega)
          exact ⟨hA, hA, hB⟩
        · exact ScanOutcome.noConfusion hv
      · simp only [ScanOutcome.ok.injEq] at hv
        subst hv
        obtain ⟨x, y, hxy⟩ := phase34_decomp (detectMetadata mmeta bytes) l h
        rw [hxy]
        refine ⟨?_, ⟨jsClamp_nonneg x, jsClamp_le_100 x, jsClamp_oneDecimal x⟩,
          ⟨jsClamp_nonneg y, jsClamp_le_100 y, jsClamp_oneDecimal y⟩⟩
        show 0 ≤ (if 50 < jsClamp y then jsClamp y else jsClamp x) ∧
          (if 50 < jsClamp y then jsClamp y else jsClamp x) ≤ 100 ∧
          oneDecimal (if 50 < jsClamp y then jsClamp y else jsClamp x)
        by_cases hy : 50 < jsClamp y
        · rw [if_pos hy]
          exact ⟨jsClamp_nonneg y, jsClamp_le_100 y, jsClamp_oneDecimal y⟩
        · rw [if_neg hy]
          exact ⟨jsClamp_nonneg x, jsClamp_le_100 x, jsClamp_oneDecimal x⟩

unseal Rat.add Rat.sub Rat.mul Rat.inv in
/-- Witness for C7 at a Phase-4 verdict. -/
theorem verdict_fields_bounded_witness :
    (0 ≤ (⟨"verified", 70, 30, 70, "ai-forensics", []⟩ : ScanVerdict).confidence ∧
      (⟨"verified", 70, 30, 70, "ai-forensics", []⟩ : ScanVerdict).confidence ≤ 100 ∧
      oneDecimal (⟨"verified", 70, 30, 70, "ai-forensics", []⟩ : ScanVerdict).confidence) ∧
    (0 ≤ (⟨"verified", 70, 30, 70, "ai-forensics", []⟩ : ScanVerdict).artificial ∧
      (⟨"verified", 70, 30, 70, "ai-forensics", []⟩ : ScanVerdict).artificial ≤ 100 ∧
      oneDecimal (⟨"verified", 70, 30, 70, "ai-forensics", []⟩ : ScanVerdict).artificial) ∧
    (0 ≤ (⟨"verified", 70, 30, 70, "ai-forensics", []⟩ : ScanVerdict).human ∧
      (⟨"verified", 70, 30, 70, "ai-forensics", []⟩ : ScanVerdict).human ≤ 100 ∧
      oneDecimal (⟨"verified", 70, 30, 70, "ai-forensics", []⟩ : ScanVerdict).human) :=
  verdict_fields_bounded [] none none (some ⟨30, 70⟩) none
    ⟨"verified", 70, 30, 70, "ai-forensics", []⟩ (by decide)

end VeriLens
